import Mathlib

/-!
Verification of the capture/display loop of `src/main.py` (Raspberry Pi
Global Shutter camera viewer).

The program is single-threaded and linear: create the output directory,
initialize the camera, run a streaming loop (read frame, color-convert,
display, poll key, optionally save), and clean up.  We embed it shallowly:

* external collaborators (Picamera2, OpenCV display, the JPEG encoder,
  the filesystem) are modelled through their observable interface: each
  loop iteration carries the camera's read result, the polled key code,
  the timestamp string `datetime.now().strftime` would produce, and
  whether `cv2.imwrite` succeeds;
* a `Frame` is a raster image: a list of rows of 3-channel pixels, as a
  numpy `(h, w, 3)` array;
* the loop body of `main` (lines 161-189) becomes `loopIter`, iterated by
  `runLoop`; the surrounding `main`/`__main__` control flow (resource
  cleanup, exception handlers, exit status) becomes `mainRun`.

Exceptions are modelled explicitly: `cv2.cvtColor(None, ...)` raising on a
failed read surfaces as the `crash` loop exit, which `mainRun` routes
through the `except` block at line 196 exactly as the Python does.
-/

/-- One 3-channel pixel, channels in storage order (`c0, c1, c2`). For a
frame fresh from `picam2.capture_array()` with format `RGB888` the order is
the camera's native order; `cv2.cvtColor(..., COLOR_RGB2BGR)` reverses it. -/
structure Pixel where
  c0 : Nat
  c1 : Nat
  c2 : Nat
deriving DecidableEq

/-- A raster frame: rows of pixels, as the numpy array of shape
`(height, width, 3)` returned by `picam2.capture_array()`. -/
structure Frame where
  rows : List (List Pixel)
deriving DecidableEq

/-- `frame.shape[1]`: width is the length of a row. -/
def Frame.width (f : Frame) : Nat := (f.rows.headD []).length

/-- `frame.shape[0]`: height is the number of rows. -/
def Frame.height (f : Frame) : Nat := f.rows.length

/-- `cv2.cvtColor(frame, cv2.COLOR_RGB2BGR)` (line 166): swap the first and
third channel of every pixel. -/
def cvtColor_RGB2BGR (f : Frame) : Frame :=
  ⟨f.rows.map (fun r => r.map (fun p => ⟨p.c2, p.c1, p.c0⟩))⟩

/-- The inverse color interpretation, `cv2.cvtColor(img, cv2.COLOR_BGR2RGB)`:
how a decoder presents the stored BGR array back as an RGB image. -/
def cvtColor_BGR2RGB (f : Frame) : Frame :=
  ⟨f.rows.map (fun r => r.map (fun p => ⟨p.c2, p.c1, p.c0⟩))⟩

/-- Key code of the quit key: `ord('q')` (line 174). -/
def quitKey : Nat := 113

/-- Key code of the save key: `ord(' ')`, the spacebar (line 177). -/
def saveKey : Nat := 32

/-- Decimal digit character, embedding how Python's f-string renders one
digit of a nonnegative integer. -/
def digitChar (d : Nat) : Char :=
  if d = 0 then '0' else if d = 1 then '1' else if d = 2 then '2'
  else if d = 3 then '3' else if d = 4 then '4' else if d = 5 then '5'
  else if d = 6 then '6' else if d = 7 then '7' else if d = 8 then '8'
  else '9'

/-- Decimal rendering of a natural number, embedding `f"{frame_count}"`:
most significant digit first, never empty. -/
def natDigits (n : Nat) : List Char :=
  if _h : n < 10 then [digitChar n]
  else natDigits (n / 10) ++ [digitChar (n % 10)]
decreasing_by exact Nat.div_lt_self (by omega) (by omega)

/-- Value of a decimal digit character (inverse of `digitChar`). -/
def digitVal (c : Char) : Nat :=
  if c = '0' then 0 else if c = '1' then 1 else if c = '2' then 2
  else if c = '3' then 3 else if c = '4' then 4 else if c = '5' then 5
  else if c = '6' then 6 else if c = '7' then 7 else if c = '8' then 8
  else 9

/-- Decode a digit string back to a number (standard positional fold). -/
def decodeDigits (l : List Char) : Nat :=
  l.foldl (fun acc c => 10 * acc + digitVal c) 0

/-- A file written by a successful `cv2.imwrite` (line 184): the timestamp
and counter that `filename = f"frame_..."` (line 180) interpolates, and the
pixel array handed to the encoder (`frame_bgr`). -/
structure SavedFile where
  ts : List Char
  counter : Nat
  content : Frame
deriving DecidableEq

/-- The filename built at line 180:
`f"frame_" + timestamp + "_" + str(frame_count) + ".jpg"`, as a character
list. -/
def SavedFile.filename (sf : SavedFile) : List Char :=
  "frame_".toList ++ sf.ts ++ ['_'] ++ natDigits sf.counter ++ ".jpg".toList

/-- The state mutated by the streaming loop: `frame_count` (line 159), the
files on disk under `frames_dir`, the frames handed to `cv2.imshow`, and
the `Error: Failed to save ...` log lines (line 189), recorded as the
file-write attempts they report. -/
structure LoopState where
  frame_count : Nat
  files : List SavedFile
  displayed : List Frame
  failLog : List SavedFile
deriving DecidableEq

/-- Loop state at line 159: zero saved frames, nothing on disk or screen. -/
def initState : LoopState := ⟨0, [], [], []⟩

/-- The environment's contribution to one loop iteration: the result of
`picam2.capture_array()` (`none` models a failed read, as the `None` check
at line 148 anticipates), the key from `cv2.waitKey(1) & 0xFF`, the
timestamp `datetime.now().strftime("%Y%m%d_%H%M%S")` would yield, and the
boolean returned by `cv2.imwrite`. -/
structure IterInput where
  read : Option Frame
  key : Nat
  ts : List Char
  writeOk : Bool
deriving DecidableEq

/-- Outcome of one pass through the loop body (lines 161-189). -/
inductive IterResult
  | cont (s : LoopState)
  | quitExit (s : LoopState)
  | crashExit (s : LoopState)
deriving DecidableEq

/-- The loop body, lines 161-189.  A failed read makes
`cv2.cvtColor(None, ...)` raise, escaping the loop (`crashExit`); `q`
breaks (`quitExit`); spacebar saves, incrementing `frame_count` only when
`cv2.imwrite` returns success; any other key falls through. -/
def loopIter (s : LoopState) (inp : IterInput) : IterResult :=
  match inp.read with
  | none => .crashExit s
  | some frame =>
    let frame_bgr := cvtColor_RGB2BGR frame
    let s1 : LoopState := { s with displayed := s.displayed ++ [frame_bgr] }
    if inp.key = quitKey then .quitExit s1
    else if inp.key = saveKey then
      let sf : SavedFile := ⟨inp.ts, s1.frame_count, frame_bgr⟩
      if inp.writeOk then
        .cont { s1 with files := s1.files ++ [sf], frame_count := s1.frame_count + 1 }
      else
        .cont { s1 with failLog := s1.failLog ++ [sf] }
    else .cont s1

/-- How the `while True` loop ended. -/
inductive LoopExit
  | quit
  | crash
deriving DecidableEq

/-- Run the loop over a finite script of iteration inputs.  `none` in the
first component means the script was exhausted with the loop still
streaming (the real loop would keep iterating). -/
def runLoop (s : LoopState) : List IterInput → Option LoopExit × LoopState
  | [] => (none, s)
  | inp :: rest =>
    match loopIter s inp with
    | .cont s1 => runLoop s1 rest
    | .quitExit s1 => (some .quit, s1)
    | .crashExit s1 => (some .crash, s1)

/-- How camera initialization went.  `raiseErr`: `Picamera2()` (or any call
up to `picam2.start()`) raised, landing in the `except` block at line 196.
`noCameras`: `global_camera_info()` was empty, line 117-118 returns.
`ok`: initialization succeeded. -/
inductive OpenOutcome
  | ok
  | raiseErr
  | noCameras
deriving DecidableEq

/-- Which path `main` terminated on. -/
inductive ExitPath
  | quitPath
  | loopCrash
  | openRaise
  | openNoCameras
  | testFrameFail
  | stillStreaming
deriving DecidableEq

/-- A cleanup action: `picam2.close()` or `cv2.destroyAllWindows()`. -/
inductive CleanupAct
  | close
  | destroyAll
deriving DecidableEq

/-- The environment of one whole run of `main`: whether the output
directory existed beforehand, how camera init went, the initial test frame
of line 147, and the loop iteration inputs. -/
structure MainInput where
  dirExistsBefore : Bool
  openRes : OpenOutcome
  testFrame : Option Frame
  script : List IterInput
deriving DecidableEq

/-- `os.makedirs(frames_dir, exist_ok=True)` (line 86): afterwards the
directory exists; `exist_ok=True` means an existing directory raises no
error.  Returns (exists after, raised an error). -/
def makedirs_exist_ok (_existsBefore : Bool) : Bool × Bool := (true, false)

/-- Observable outcome of one run of `main` under `__main__`'s handler. -/
structure MainResult where
  dirExistsAfter : Bool
  mkdirError : Bool
  openAttempts : Nat
  enteredLoop : Bool
  exitPath : ExitPath
  cleanup : List CleanupAct
  displayed : List Frame
  files : List SavedFile
  frame_count : Nat
  summary : Option Nat
  exitStatus : Nat
deriving DecidableEq

/-- Whether `picam2.close()` appears in the cleanup actions. -/
def MainResult.released (r : MainResult) : Bool :=
  r.cleanup.contains CleanupAct.close

/-- Whether `cv2.destroyAllWindows()` appears in the cleanup actions. -/
def MainResult.windowsDestroyed (r : MainResult) : Bool :=
  r.cleanup.contains CleanupAct.destroyAll

/-- The whole of `main` (lines 80-204) plus the `__main__` guard (lines
206-211).  `os.makedirs` runs first in every branch.  The camera is
constructed exactly once; on `raiseErr` the `except Exception` block at
line 196 prints troubleshooting text and calls `cv2.destroyAllWindows()`
only; on `noCameras` line 118 returns with no cleanup call.  With the
camera open, a `None` initial test frame closes the camera and returns
(line 152-153).  Otherwise the loop runs: the `q` break reaches lines
191-194 (`picam2.close()`, then `cv2.destroyAllWindows()`, then the
`Program ended. N frames captured.` summary); an exception escaping the
loop body reaches the line-196 handler (`cv2.destroyAllWindows()` only —
`picam2.close()` is never called there).  `main` never calls `sys.exit`
and `__main__` catches every exception, so the interpreter always exits
with status 0. -/
def mainRun (m : MainInput) : MainResult :=
  let md := makedirs_exist_ok m.dirExistsBefore
  match m.openRes with
  | .raiseErr =>
    { dirExistsAfter := md.1, mkdirError := md.2, openAttempts := 1,
      enteredLoop := false, exitPath := .openRaise,
      cleanup := [.destroyAll], displayed := [], files := [],
      frame_count := 0, summary := none, exitStatus := 0 }
  | .noCameras =>
    { dirExistsAfter := md.1, mkdirError := md.2, openAttempts := 1,
      enteredLoop := false, exitPath := .openNoCameras,
      cleanup := [], displayed := [], files := [],
      frame_count := 0, summary := none, exitStatus := 0 }
  | .ok =>
    match m.testFrame with
    | none =>
      { dirExistsAfter := md.1, mkdirError := md.2, openAttempts := 1,
        enteredLoop := false, exitPath := .testFrameFail,
        cleanup := [.close], displayed := [], files := [],
        frame_count := 0, summary := none, exitStatus := 0 }
    | some _ =>
      let res := runLoop initState m.script
      match res.1 with
      | some .quit =>
        { dirExistsAfter := md.1, mkdirError := md.2, openAttempts := 1,
          enteredLoop := true, exitPath := .quitPath,
          cleanup := [.close, .destroyAll], displayed := res.2.displayed,
          files := res.2.files, frame_count := res.2.frame_count,
          summary := some res.2.frame_count, exitStatus := 0 }
      | some .crash =>
        { dirExistsAfter := md.1, mkdirError := md.2, openAttempts := 1,
          enteredLoop := true, exitPath := .loopCrash,
          cleanup := [.destroyAll], displayed := res.2.displayed,
          files := res.2.files, frame_count := res.2.frame_count,
          summary := none, exitStatus := 0 }
      | none =>
        { dirExistsAfter := md.1, mkdirError := md.2, openAttempts := 1,
          enteredLoop := true, exitPath := .stillStreaming,
          cleanup := [], displayed := res.2.displayed,
          files := res.2.files, frame_count := res.2.frame_count,
          summary := none, exitStatus := 0 }

theorem digitVal_digitChar (d : Nat) (h : d < 10) : digitVal (digitChar d) = d := by
  interval_cases d <;> decide

theorem digitChar_ne_underscore (d : Nat) : digitChar d ≠ '_' := by
  unfold digitChar
  repeat' split
  all_goals decide

theorem natDigits_foldl (n : Nat) :
    ∀ a : Nat, (natDigits n).foldl (fun acc c => 10 * acc + digitVal c) a
      = a * 10 ^ (natDigits n).length + n := by
  induction n using Nat.strong_induction_on with
  | _ n ih =>
    intro a
    rw [natDigits]
    split
    · rename_i h
      simp [List.foldl, digitVal_digitChar n h]
      omega
    · rename_i h
      rw [List.foldl_append,
        ih (n / 10) (Nat.div_lt_self (by omega) (by omega)) a]
      have hd : digitVal (digitChar (n % 10)) = n % 10 :=
        digitVal_digitChar _ (Nat.mod_lt _ (by omega))
      simp only [List.foldl, List.length_append, List.length_cons,
        List.length_nil, hd]
      have hm : 10 * (n / 10) + n % 10 = n := Nat.div_add_mod n 10
      have hp : 10 ^ ((natDigits (n / 10)).length + (0 + 1))
          = 10 ^ (natDigits (n / 10)).length * 10 := by
        rw [Nat.zero_add, Nat.pow_succ]
      rw [hp]
      calc 10 * (a * 10 ^ (natDigits (n / 10)).length + n / 10) + n % 10
          = a * (10 ^ (natDigits (n / 10)).length * 10)
            + (10 * (n / 10) + n % 10) := by ring
        _ = a * (10 ^ (natDigits (n / 10)).length * 10) + n := by rw [hm]

theorem decodeDigits_natDigits (n : Nat) : decodeDigits (natDigits n) = n := by
  have h := natDigits_foldl n 0
  simpa [decodeDigits] using h

theorem natDigits_injective {m n : Nat} (h : natDigits m = natDigits n) :
    m = n := by
  have hm := decodeDigits_natDigits m
  rw [h, decodeDigits_natDigits] at hm
  exact hm.symm

theorem underscore_not_mem_natDigits (n : Nat) : '_' ∉ natDigits n := by
  induction n using Nat.strong_induction_on with
  | _ n ih =>
    rw [natDigits]
    split
    · intro hmem
      simp at hmem
      exact digitChar_ne_underscore n hmem.symm
    · rename_i h
      intro hmem
      rcases List.mem_append.mp hmem with h1 | h2
      · exact ih (n / 10) (Nat.div_lt_self (by omega) (by omega)) h1
      · simp at h2
        exact digitChar_ne_underscore (n % 10) h2.symm

theorem split_at_first_underscore :
    ∀ (a1 a2 b1 b2 : List Char),
      a1 ++ '_' :: b1 = a2 ++ '_' :: b2 → '_' ∉ a1 → '_' ∉ a2 →
      a1 = a2 ∧ b1 = b2 := by
  intro a1
  induction a1 with
  | nil =>
    intro a2 b1 b2 h h1 h2
    cases a2 with
    | nil =>
      simp only [List.nil_append, List.cons.injEq] at h
      exact ⟨rfl, h.2⟩
    | cons c t =>
      simp only [List.nil_append, List.cons_append, List.cons.injEq] at h
      exact absurd (h.1 ▸ List.mem_cons_self c t) h2
  | cons c t ih =>
    intro a2 b1 b2 h h1 h2
    cases a2 with
    | nil =>
      simp only [List.nil_append, List.cons_append, List.cons.injEq] at h
      exact absurd (h.1.symm ▸ List.mem_cons_self c t) h1
    | cons c2 t2 =>
      simp only [List.cons_append, List.cons.injEq] at h
      have h1' : '_' ∉ t := fun hx => h1 (List.mem_cons_of_mem _ hx)
      have h2' : '_' ∉ t2 := fun hx => h2 (List.mem_cons_of_mem _ hx)
      obtain ⟨ht, hb⟩ := ih t2 b1 b2 h.2 h1' h2'
      exact ⟨by rw [h.1, ht], hb⟩

theorem filename_counter_inj (sf1 sf2 : SavedFile)
    (h : sf1.filename = sf2.filename) : sf1.counter = sf2.counter := by
  unfold SavedFile.filename at h
  have h' := List.append_cancel_right h
  have hr := congrArg List.reverse h'
  simp only [List.reverse_append, List.reverse_cons, List.reverse_nil,
    List.nil_append, List.singleton_append, List.append_assoc] at hr
  have hu1 : '_' ∉ (natDigits sf1.counter).reverse := by
    intro hx
    exact underscore_not_mem_natDigits _ (List.mem_reverse.mp hx)
  have hu2 : '_' ∉ (natDigits sf2.counter).reverse := by
    intro hx
    exact underscore_not_mem_natDigits _ (List.mem_reverse.mp hx)
  obtain ⟨hd, -⟩ := split_at_first_underscore _ _ _ _ hr hu1 hu2
  exact natDigits_injective (List.reverse_injective hd)

/-- State carried by an iteration result. -/
def IterResult.state : IterResult → LoopState
  | .cont s => s
  | .quitExit s => s
  | .crashExit s => s

/-- Number of save-key presses the loop acts on before the first quit key:
the press count `N` of the spec for a script whose reads all succeed. -/
def countSaveBeforeQuit : List IterInput → Nat
  | [] => 0
  | inp :: rest =>
    if inp.key = quitKey then 0
    else (if inp.key = saveKey then 1 else 0) + countSaveBeforeQuit rest

theorem loopIter_step (s : LoopState) (inp : IterInput) :
    s.frame_count ≤ (loopIter s inp).state.frame_count
      ∧ (loopIter s inp).state.frame_count + s.files.length
          = s.frame_count + (loopIter s inp).state.files.length := by
  unfold loopIter
  cases hr : inp.read with
  | none => simp [IterResult.state]
  | some f =>
    by_cases hq : inp.key = quitKey
    · simp [hq, IterResult.state]
    · by_cases hs : inp.key = saveKey
      · by_cases hw : inp.writeOk
        · simp [hq, hs, hw, saveKey, quitKey, IterResult.state]
          omega
        · simp [hq, hs, hw, saveKey, quitKey, IterResult.state]
      · simp [hq, hs, IterResult.state]

theorem loopIter_non_save (s : LoopState) (inp : IterInput)
    (h : inp.key ≠ saveKey) :
    (loopIter s inp).state.files = s.files
      ∧ (loopIter s inp).state.frame_count = s.frame_count
      ∧ (loopIter s inp).state.failLog = s.failLog := by
  unfold loopIter
  cases hr : inp.read with
  | none => simp [IterResult.state]
  | some f =>
    by_cases hq : inp.key = quitKey
    · simp [hq, IterResult.state]
    · simp [hq, h, IterResult.state]

theorem runLoop_step_inv (script : List IterInput) :
    ∀ s : LoopState,
      s.frame_count ≤ (runLoop s script).2.frame_count
        ∧ (runLoop s script).2.frame_count + s.files.length
            = s.frame_count + (runLoop s script).2.files.length := by
  induction script with
  | nil => intro s; simp [runLoop]
  | cons inp rest ih =>
    intro s
    have hstep := loopIter_step s inp
    cases hit : loopIter s inp with
    | cont s1 =>
      have hrest := ih s1
      rw [hit] at hstep
      simp only [IterResult.state] at hstep
      simp only [runLoop, hit]
      omega
    | quitExit s1 =>
      rw [hit] at hstep
      simp only [IterResult.state] at hstep
      simp only [runLoop, hit]
      exact hstep
    | crashExit s1 =>
      rw [hit] at hstep
      simp only [IterResult.state] at hstep
      simp only [runLoop, hit]
      exact hstep


theorem runLoop_quit_counters (script : List IterInput) :
    ∀ s : LoopState,
      (∀ inp ∈ script, inp.read.isSome = true ∧ inp.writeOk = true) →
      (runLoop s script).1 = some LoopExit.quit →
      (runLoop s script).2.files.map SavedFile.counter
          = s.files.map SavedFile.counter
            ++ List.range' s.frame_count (countSaveBeforeQuit script)
        ∧ (runLoop s script).2.frame_count
            = s.frame_count + countSaveBeforeQuit script := by
  induction script with
  | nil =>
    intro s _ hq
    simp [runLoop] at hq
  | cons inp rest ih =>
    intro s hall hq
    obtain ⟨hread, hwrite⟩ := hall inp (List.mem_cons_self _ _)
    obtain ⟨f, hf⟩ := Option.isSome_iff_exists.mp hread
    have hall' : ∀ i ∈ rest, i.read.isSome = true ∧ i.writeOk = true :=
      fun i hi => hall i (List.mem_cons_of_mem _ hi)
    by_cases hk : inp.key = quitKey
    · have hit : loopIter s inp
          = IterResult.quitExit
              ⟨s.frame_count, s.files,
                s.displayed ++ [cvtColor_RGB2BGR f], s.failLog⟩ := by
        simp [loopIter, hf, hk]
      simp only [runLoop, hit, countSaveBeforeQuit, hk, if_pos rfl]
      simp
    · by_cases hs : inp.key = saveKey
      · have hit : loopIter s inp
            = IterResult.cont
                ⟨s.frame_count + 1,
                  s.files ++ [⟨inp.ts, s.frame_count, cvtColor_RGB2BGR f⟩],
                  s.displayed ++ [cvtColor_RGB2BGR f], s.failLog⟩ := by
          simp [loopIter, hf, hk, hs, hwrite, saveKey, quitKey]
        simp only [runLoop, hit] at hq ⊢
        obtain ⟨h1, h2⟩ := ih _ hall' hq
        simp only [countSaveBeforeQuit]
        rw [if_neg hk, if_pos hs]
        simp only [List.map_append, List.map_cons, List.map_nil] at h1 h2 ⊢
        have hr : List.range' s.frame_count (1 + countSaveBeforeQuit rest)
            = s.frame_count
                :: List.range' (s.frame_count + 1) (countSaveBeforeQuit rest) := by
          rw [Nat.add_comm 1 (countSaveBeforeQuit rest), List.range'_succ]
        constructor
        · rw [h1, hr]
          simp
        · rw [h2]
          show s.frame_count + 1 + countSaveBeforeQuit rest
              = s.frame_count + (1 + countSaveBeforeQuit rest)
          omega
      · have hit : loopIter s inp
            = IterResult.cont
                ⟨s.frame_count, s.files,
                  s.displayed ++ [cvtColor_RGB2BGR f], s.failLog⟩ := by
          simp [loopIter, hf, hk, hs]
        simp only [runLoop, hit] at hq ⊢
        obtain ⟨h1, h2⟩ := ih _ hall' hq
        simp only [countSaveBeforeQuit]
        rw [if_neg hk, if_neg hs, Nat.zero_add]
        constructor
        · rw [h1]
        · rw [h2]

theorem swap_swap_row (l : List Pixel) :
    (l.map (fun p => (⟨p.c2, p.c1, p.c0⟩ : Pixel))).map
        (fun p => (⟨p.c2, p.c1, p.c0⟩ : Pixel)) = l := by
  induction l with
  | nil => rfl
  | cons p t ih => simp [ih]

/-- Converting RGB→BGR and reading the result back BGR→RGB restores the
original frame: the channel swap is an involution. -/
theorem cvtColor_BGR2RGB_RGB2BGR (f : Frame) :
    cvtColor_BGR2RGB (cvtColor_RGB2BGR f) = f := by
  cases f with
  | mk rows =>
    simp only [cvtColor_RGB2BGR, cvtColor_BGR2RGB]
    congr 1
    induction rows with
    | nil => rfl
    | cons r t ih =>
      simp only [List.map_cons, List.cons.injEq]
      exact ⟨swap_swap_row r, ih⟩

/-- The color conversion preserves width: it remaps pixels 1:1. -/
theorem width_cvtColor_RGB2BGR (f : Frame) :
    (cvtColor_RGB2BGR f).width = f.width := by
  cases f with
  | mk rows =>
    cases rows with
    | nil => rfl
    | cons r t => simp [cvtColor_RGB2BGR, Frame.width]

/-- The color conversion preserves height: it remaps rows 1:1. -/
theorem height_cvtColor_RGB2BGR (f : Frame) :
    (cvtColor_RGB2BGR f).height = f.height := by
  cases f with
  | mk rows => simp [cvtColor_RGB2BGR, Frame.height]

/-- A tiny test frame (one pixel). -/
def fr1 : Frame := ⟨[[⟨10, 20, 30⟩]]⟩

/-- A second tiny test frame. -/
def fr2 : Frame := ⟨[[⟨40, 50, 60⟩]]⟩

/-- A sample second-resolution timestamp as `strftime("%Y%m%d_%H%M%S")`
formats one. -/
def ts1 : List Char := "20250101_120000".toList

/-- A frame of the Global Shutter camera's native width 1456 (one row). -/
def frame1456 : Frame := ⟨[List.replicate 1456 ⟨0, 0, 0⟩]⟩

theorem frame1456_width : frame1456.width = 1456 := by
  unfold frame1456 Frame.width
  rw [List.headD_cons, List.length_replicate]

/-- C1: in a quit-terminated run in which every camera read succeeds and
every `cv2.imwrite` succeeds, the number of files created equals the
number of save-key presses before the quit key, their embedded counters
are `0..N-1` in press order, the saved-frame counter finishes at `N`
(having risen by exactly 1 per successful save), and no two saved files
share a filename. -/
theorem C1_press_counter_files (script : List IterInput)
    (hgood : ∀ inp ∈ script, inp.read.isSome = true ∧ inp.writeOk = true)
    (hquit : (runLoop initState script).1 = some LoopExit.quit) :
    (runLoop initState script).2.files.length = countSaveBeforeQuit script
      ∧ (runLoop initState script).2.files.map SavedFile.counter
          = List.range (countSaveBeforeQuit script)
      ∧ (runLoop initState script).2.frame_count = countSaveBeforeQuit script
      ∧ (runLoop initState script).2.files.Pairwise
          (fun a b => a.filename ≠ b.filename) := by
  obtain ⟨h1, h2⟩ := runLoop_quit_counters script initState hgood hquit
  have hif : initState.files = [] := rfl
  have hic : initState.frame_count = 0 := rfl
  rw [hif] at h1
  rw [hic] at h1 h2
  simp only [List.map_nil, List.nil_append] at h1
  rw [← List.range_eq_range'] at h1
  rw [Nat.zero_add] at h2
  refine ⟨?_, h1, h2, ?_⟩
  · have hl := congrArg List.length h1
    simpa using hl
  · have hnd : ((runLoop initState script).2.files.map SavedFile.counter).Nodup := by
      rw [h1]
      exact List.nodup_range _
    have hpw : (runLoop initState script).2.files.Pairwise
        (fun a b => a.counter ≠ b.counter) := List.pairwise_map.mp hnd
    exact hpw.imp (fun hcc hff => hcc (filename_counter_inj _ _ hff))

/-- A concrete run: two spacebar presses, then the quit key. -/
def scriptC1 : List IterInput :=
  [⟨some fr1, saveKey, ts1, true⟩, ⟨some fr2, saveKey, ts1, true⟩,
   ⟨some fr1, quitKey, ts1, true⟩]

/-- Witness for C1 on a concrete two-press run. -/
theorem C1_press_counter_files_witness :
    (∀ inp ∈ scriptC1, inp.read.isSome = true ∧ inp.writeOk = true)
      ∧ (runLoop initState scriptC1).1 = some LoopExit.quit
      ∧ ((runLoop initState scriptC1).2.files.length
            = countSaveBeforeQuit scriptC1
          ∧ (runLoop initState scriptC1).2.files.map SavedFile.counter
              = List.range (countSaveBeforeQuit scriptC1)
          ∧ (runLoop initState scriptC1).2.frame_count
              = countSaveBeforeQuit scriptC1
          ∧ (runLoop initState scriptC1).2.files.Pairwise
              (fun a b => a.filename ≠ b.filename)) :=
  ⟨by decide, by decide, C1_press_counter_files scriptC1 (by decide) (by decide)⟩

/-- C3 counterexample: one failed read crashes the loop (the claim says N
consecutive failed reads never crash it).  The subsequent successful-read
iteration is never reached: the final state is still the initial state,
nothing was displayed afterwards. -/
theorem C3_counterexample :
    (runLoop initState
        [⟨none, 255, ts1, true⟩, ⟨some fr1, 255, ts1, true⟩]).1
      = some LoopExit.crash
      ∧ (runLoop initState
          [⟨none, 255, ts1, true⟩, ⟨some fr1, 255, ts1, true⟩]).2
        = initState := by
  decide

/-- C3 amended: a failed frame read inside the streaming loop raises (via
`cv2.cvtColor(None, ...)`) and terminates the loop at once, before any
later iteration; the state — in particular the saved-frame counter and the
files — is unchanged by the failed read. -/
theorem C3_failed_read_crashes (s : LoopState) (inp : IterInput)
    (rest : List IterInput) (h : inp.read = none) :
    runLoop s (inp :: rest) = (some LoopExit.crash, s) := by
  have hit : loopIter s inp = IterResult.crashExit s := by
    simp [loopIter, h]
  simp only [runLoop, hit]

/-- Witness for C3 amended at a concrete failed read. -/
theorem C3_failed_read_crashes_witness :
    runLoop initState [⟨none, 255, ts1, true⟩, ⟨some fr1, saveKey, ts1, true⟩]
      = (some LoopExit.crash, initState) :=
  C3_failed_read_crashes initState ⟨none, 255, ts1, true⟩
    [⟨some fr1, saveKey, ts1, true⟩] rfl

/-- C5: a successful save appends exactly one file whose content is the
color-converted current frame at native resolution; decoding it (reading
the BGR array back as RGB) restores the acquired frame exactly — not a
downscaled or otherwise altered copy. -/
theorem C5_saved_content_native (s : LoopState) (inp : IterInput) (f : Frame)
    (hf : inp.read = some f) (hk : inp.key = saveKey)
    (hw : inp.writeOk = true) :
    ∃ s1 : LoopState, ∃ sf : SavedFile,
      loopIter s inp = IterResult.cont s1
        ∧ s1.files = s.files ++ [sf]
        ∧ sf.content = cvtColor_RGB2BGR f
        ∧ cvtColor_BGR2RGB sf.content = f
        ∧ sf.content.width = f.width
        ∧ sf.content.height = f.height
        ∧ sf.counter = s.frame_count
        ∧ s1.frame_count = s.frame_count + 1 := by
  have hkq : ¬ inp.key = quitKey := by
    rw [hk]
    decide
  have hit : loopIter s inp
      = IterResult.cont
          ⟨s.frame_count + 1,
            s.files ++ [⟨inp.ts, s.frame_count, cvtColor_RGB2BGR f⟩],
            s.displayed ++ [cvtColor_RGB2BGR f], s.failLog⟩ := by
    simp [loopIter, hf, hk, hkq, hw, saveKey, quitKey]
  exact ⟨_, ⟨inp.ts, s.frame_count, cvtColor_RGB2BGR f⟩, hit, rfl, rfl,
    cvtColor_BGR2RGB_RGB2BGR f, width_cvtColor_RGB2BGR f,
    height_cvtColor_RGB2BGR f, rfl, rfl⟩

/-- Witness for C5 at a concrete save. -/
theorem C5_saved_content_native_witness :
    ∃ s1 : LoopState, ∃ sf : SavedFile,
      loopIter initState ⟨some fr1, saveKey, ts1, true⟩ = IterResult.cont s1
        ∧ s1.files = initState.files ++ [sf]
        ∧ sf.content = cvtColor_RGB2BGR fr1
        ∧ cvtColor_BGR2RGB sf.content = fr1
        ∧ sf.content.width = fr1.width
        ∧ sf.content.height = fr1.height
        ∧ sf.counter = initState.frame_count
        ∧ s1.frame_count = initState.frame_count + 1 :=
  C5_saved_content_native initState ⟨some fr1, saveKey, ts1, true⟩ fr1
    rfl rfl rfl

/-- C8: if the save key is pressed and the write fails, the failure is
logged (one new failure-log entry), the files and the saved-frame counter
are unchanged, and the loop carries on with the remaining iterations. -/
theorem C8_write_failure_no_increment (s : LoopState) (inp : IterInput)
    (f : Frame) (hf : inp.read = some f) (hk : inp.key = saveKey)
    (hw : inp.writeOk = false) :
    ∃ s1 : LoopState,
      loopIter s inp = IterResult.cont s1
        ∧ s1.files = s.files
        ∧ s1.frame_count = s.frame_count
        ∧ s1.failLog
            = s.failLog ++ [⟨inp.ts, s.frame_count, cvtColor_RGB2BGR f⟩]
        ∧ ∀ rest, runLoop s (inp :: rest) = runLoop s1 rest := by
  have hkq : ¬ inp.key = quitKey := by
    rw [hk]
    decide
  have hit : loopIter s inp
      = IterResult.cont
          ⟨s.frame_count, s.files, s.displayed ++ [cvtColor_RGB2BGR f],
            s.failLog ++ [⟨inp.ts, s.frame_count, cvtColor_RGB2BGR f⟩]⟩ := by
    simp [loopIter, hf, hk, hkq, hw, saveKey, quitKey]
  exact ⟨_, hit, rfl, rfl, rfl, fun rest => by simp only [runLoop, hit]⟩

/-- Witness for C8 at a concrete failing write. -/
theorem C8_write_failure_no_increment_witness :
    ∃ s1 : LoopState,
      loopIter initState ⟨some fr1, saveKey, ts1, false⟩ = IterResult.cont s1
        ∧ s1.files = initState.files
        ∧ s1.frame_count = initState.frame_count
        ∧ s1.failLog
            = initState.failLog
              ++ [⟨ts1, initState.frame_count, cvtColor_RGB2BGR fr1⟩]
        ∧ ∀ rest, runLoop initState (⟨some fr1, saveKey, ts1, false⟩ :: rest)
            = runLoop s1 rest :=
  C8_write_failure_no_increment initState ⟨some fr1, saveKey, ts1, false⟩ fr1
    rfl rfl rfl

/-- C10: the saved-frame counter never decreases across any segment of the
loop; from the start of the run it always equals the number of files
successfully written; and an iteration polling any key other than the save
key (or no key) leaves the files and the counter unchanged. -/
theorem C10_counter_invariant (s : LoopState) (script : List IterInput)
    (inp : IterInput) (hk : inp.key ≠ saveKey) :
    s.frame_count ≤ (runLoop s script).2.frame_count
      ∧ (runLoop initState script).2.frame_count
          = (runLoop initState script).2.files.length
      ∧ (loopIter s inp).state.files = s.files
      ∧ (loopIter s inp).state.frame_count = s.frame_count := by
  have h1 := runLoop_step_inv script s
  have h2 := runLoop_step_inv script initState
  have h3 := loopIter_non_save s inp hk
  have hif : initState.files = [] := rfl
  have hic : initState.frame_count = 0 := rfl
  rw [hif, hic] at h2
  simp only [List.length_nil] at h2
  exact ⟨h1.1, by omega, h3.1, h3.2.1⟩

/-- Witness for C10 at a concrete state, script, and non-save key press. -/
theorem C10_counter_invariant_witness :
    initState.frame_count ≤ (runLoop initState scriptC1).2.frame_count
      ∧ (runLoop initState scriptC1).2.frame_count
          = (runLoop initState scriptC1).2.files.length
      ∧ (loopIter initState ⟨some fr1, 255, ts1, true⟩).state.files
          = initState.files
      ∧ (loopIter initState ⟨some fr1, 255, ts1, true⟩).state.frame_count
          = initState.frame_count :=
  C10_counter_invariant initState scriptC1 ⟨some fr1, 255, ts1, true⟩
    (by decide)

/-- C2 counterexample: a run that enters the loop and then crashes on a
failed read ends on the exception path, where `cv2.destroyAllWindows()`
runs but `picam2.close()` does not: the camera handle is leaked, refuting
the claim that every exit path releases the device handle. -/
theorem C2_counterexample :
    (mainRun ⟨true, OpenOutcome.ok, some fr1, [⟨none, 255, ts1, true⟩]⟩).exitPath
        = ExitPath.loopCrash
      ∧ (mainRun ⟨true, OpenOutcome.ok, some fr1,
            [⟨none, 255, ts1, true⟩]⟩).released = false
      ∧ (mainRun ⟨true, OpenOutcome.ok, some fr1,
            [⟨none, 255, ts1, true⟩]⟩).windowsDestroyed = true := by
  decide

/-- C2 amended: on the normal quit-key exit the device handle is released
and then the display surface is destroyed, in that order; but on an
exception — inside the loop or during camera initialization — only the
display surface is destroyed and the device handle is never released. -/
theorem C2_cleanup_per_path (m : MainInput) :
    ((mainRun m).exitPath = ExitPath.quitPath →
        (mainRun m).cleanup = [CleanupAct.close, CleanupAct.destroyAll])
      ∧ ((mainRun m).exitPath = ExitPath.loopCrash →
        (mainRun m).cleanup = [CleanupAct.destroyAll]
          ∧ (mainRun m).released = false)
      ∧ ((mainRun m).exitPath = ExitPath.openRaise →
        (mainRun m).cleanup = [CleanupAct.destroyAll]
          ∧ (mainRun m).released = false) := by
  obtain ⟨d, o, t, sc⟩ := m
  cases o with
  | raiseErr =>
    exact ⟨(fun h => nomatch h), (fun h => nomatch h), (fun _ => ⟨rfl, rfl⟩)⟩
  | noCameras =>
    exact ⟨(fun h => nomatch h), (fun h => nomatch h), (fun h => nomatch h)⟩
  | ok =>
    cases t with
    | none =>
      exact ⟨(fun h => nomatch h), (fun h => nomatch h), (fun h => nomatch h)⟩
    | some f0 =>
      rcases hres : (runLoop initState sc).1 with _ | e
      · simp only [mainRun, hres]
        exact ⟨(fun h => nomatch h), (fun h => nomatch h), (fun h => nomatch h)⟩
      · cases e with
        | quit =>
          simp only [mainRun, hres]
          exact ⟨(fun _ => trivial), (fun h => nomatch h), (fun h => nomatch h)⟩
        | crash =>
          simp only [mainRun, hres]
          exact ⟨(fun h => nomatch h), (fun _ => ⟨trivial, rfl⟩),
            (fun h => nomatch h)⟩

/-- Witness for C2 amended: the quit-path conclusion at a concrete run. -/
theorem C2_cleanup_per_path_witness :
    (mainRun ⟨true, OpenOutcome.ok, some fr1, scriptC1⟩).cleanup
      = [CleanupAct.close, CleanupAct.destroyAll] :=
  (C2_cleanup_per_path ⟨true, OpenOutcome.ok, some fr1, scriptC1⟩).1 (by decide)

/-- C4 counterexample: the loop contains no downscaling step, so a frame
of width 1456 is displayed at width 1456, not at the claimed display cap
of 1024; the saved file also has width 1456. -/
theorem C4_counterexample :
    ((runLoop initState [⟨some frame1456, saveKey, ts1, true⟩]).2.displayed.map
        Frame.width) = [1456]
      ∧ ((runLoop initState [⟨some frame1456, saveKey, ts1, true⟩]).2.files.map
          (fun sf => sf.content.width)) = [1456]
      ∧ (1456 : Nat) ≠ 1024 := by
  have hit : loopIter initState ⟨some frame1456, saveKey, ts1, true⟩
      = IterResult.cont
          ⟨1, [⟨ts1, 0, cvtColor_RGB2BGR frame1456⟩],
            [cvtColor_RGB2BGR frame1456], []⟩ := by
    simp [loopIter, initState, saveKey, quitKey]
  simp only [runLoop, hit]
  refine ⟨?_, ?_, by decide⟩
  · simp [width_cvtColor_RGB2BGR, frame1456_width]
  · simp [width_cvtColor_RGB2BGR, frame1456_width]

/-- C4 amended: no display cap exists; the displayed frame is exactly the
color-converted current frame and keeps the original dimensions (a width
1456 frame is displayed at 1456), and any file a save appends also has
the original dimensions. -/
theorem C4_display_and_save_native_size (s : LoopState) (inp : IterInput)
    (f : Frame) (hf : inp.read = some f) :
    (loopIter s inp).state.displayed = s.displayed ++ [cvtColor_RGB2BGR f]
      ∧ (cvtColor_RGB2BGR f).width = f.width
      ∧ (cvtColor_RGB2BGR f).height = f.height
      ∧ ∀ sf ∈ (loopIter s inp).state.files,
          sf ∈ s.files ∨ (sf.content.width = f.width
            ∧ sf.content.height = f.height) := by
  refine ⟨?_, width_cvtColor_RGB2BGR f, height_cvtColor_RGB2BGR f, ?_⟩
  · unfold loopIter
    rw [hf]
    by_cases hq : inp.key = quitKey
    · simp [hq, IterResult.state]
    · by_cases hs : inp.key = saveKey
      · by_cases hw : inp.writeOk
        · simp [hq, hs, hw, saveKey, quitKey, IterResult.state]
        · simp [hq, hs, hw, saveKey, quitKey, IterResult.state]
      · simp [hq, hs, IterResult.state]
  · intro sf hmem
    unfold loopIter at hmem
    rw [hf] at hmem
    by_cases hq : inp.key = quitKey
    · simp [hq, IterResult.state] at hmem
      exact Or.inl hmem
    · by_cases hs : inp.key = saveKey
      · by_cases hw : inp.writeOk
        · simp [hq, hs, hw, saveKey, quitKey, IterResult.state] at hmem
          rcases hmem with hmem | hmem
          · exact Or.inl hmem
          · refine Or.inr ?_
            rw [hmem]
            exact ⟨width_cvtColor_RGB2BGR f, height_cvtColor_RGB2BGR f⟩
        · simp [hq, hs, hw, saveKey, quitKey, IterResult.state] at hmem
          exact Or.inl hmem
      · simp [hq, hs, IterResult.state] at hmem
        exact Or.inl hmem

/-- Witness for C4 amended at the 1456-wide frame. -/
theorem C4_display_and_save_native_size_witness :
    (loopIter initState ⟨some frame1456, saveKey, ts1, true⟩).state.displayed
        = initState.displayed ++ [cvtColor_RGB2BGR frame1456]
      ∧ (cvtColor_RGB2BGR frame1456).width = frame1456.width
      ∧ (cvtColor_RGB2BGR frame1456).height = frame1456.height
      ∧ ∀ sf ∈ (loopIter initState
            ⟨some frame1456, saveKey, ts1, true⟩).state.files,
          sf ∈ initState.files ∨ (sf.content.width = frame1456.width
            ∧ sf.content.height = frame1456.height) :=
  C4_display_and_save_native_size initState
    ⟨some frame1456, saveKey, ts1, true⟩ frame1456 rfl

/-- C6 counterexample: a fatal device-open failure still exits with status
0 — the exception is caught and `sys.exit` is never called — refuting the
claimed non-zero exit status on device-open failure. -/
theorem C6_counterexample :
    (mainRun ⟨true, OpenOutcome.raiseErr, none, []⟩).exitPath
        = ExitPath.openRaise
      ∧ (mainRun ⟨true, OpenOutcome.raiseErr, none, []⟩).exitStatus = 0 := by
  decide

/-- C6 amended: the process exit status is 0 on every path — clean quit
and fatal device-open failure alike — because `main` never calls
`sys.exit` and both `except` handlers swallow the exception; no other
structured error code is exposed. -/
theorem C6_exit_status_always_zero (m : MainInput) :
    (mainRun m).exitStatus = 0 := by
  obtain ⟨d, o, t, sc⟩ := m
  cases o with
  | raiseErr => rfl
  | noCameras => rfl
  | ok =>
    cases t with
    | none => rfl
    | some f0 =>
      rcases hres : (runLoop initState sc).1 with _ | e
      · simp only [mainRun, hres]
      · cases e with
        | quit => simp only [mainRun, hres]
        | crash => simp only [mainRun, hres]

/-- C7 counterexample: when the device open fails, the program prints an
error message but no frame-count summary at all — `summary` is `none`,
refuting the claim that it reports zero frames captured. -/
theorem C7_counterexample :
    (mainRun ⟨false, OpenOutcome.raiseErr, none,
        [⟨some fr1, 113, ts1, true⟩]⟩).summary = none
      ∧ ¬ (mainRun ⟨false, OpenOutcome.raiseErr, none,
          [⟨some fr1, 113, ts1, true⟩]⟩).summary = some 0 := by
  decide

/-- C7 amended: if opening the camera fails (constructor raises or no
camera is detected), zero files are created, the counter stays 0, the
display surface is never shown, the open is attempted exactly once, and
the program never enters the streaming loop — but no frame-count summary
is printed (the troubleshooting message replaces it). -/
theorem C7_open_fail_behavior (m : MainInput)
    (h : m.openRes = OpenOutcome.raiseErr
      ∨ m.openRes = OpenOutcome.noCameras) :
    (mainRun m).files = []
      ∧ (mainRun m).frame_count = 0
      ∧ (mainRun m).displayed = []
      ∧ (mainRun m).openAttempts = 1
      ∧ (mainRun m).enteredLoop = false
      ∧ (mainRun m).summary = none := by
  obtain ⟨d, o, t, sc⟩ := m
  cases o with
  | raiseErr => exact ⟨rfl, rfl, rfl, rfl, rfl, rfl⟩
  | noCameras => exact ⟨rfl, rfl, rfl, rfl, rfl, rfl⟩
  | ok =>
    rcases h with h | h <;> exact nomatch h

/-- Witness for C7 amended at a concrete failed open. -/
theorem C7_open_fail_behavior_witness :
    (mainRun ⟨false, OpenOutcome.noCameras, none, scriptC1⟩).files = []
      ∧ (mainRun ⟨false, OpenOutcome.noCameras, none, scriptC1⟩).frame_count = 0
      ∧ (mainRun ⟨false, OpenOutcome.noCameras, none, scriptC1⟩).displayed = []
      ∧ (mainRun ⟨false, OpenOutcome.noCameras, none,
          scriptC1⟩).openAttempts = 1
      ∧ (mainRun ⟨false, OpenOutcome.noCameras, none,
          scriptC1⟩).enteredLoop = false
      ∧ (mainRun ⟨false, OpenOutcome.noCameras, none, scriptC1⟩).summary
          = none :=
  C7_open_fail_behavior ⟨false, OpenOutcome.noCameras, none, scriptC1⟩
    (Or.inr rfl)

/-- C9: `os.makedirs(frames_dir, exist_ok=True)` runs unconditionally at
startup, before the camera is touched: after startup (and hence before
any save) the output directory exists on every path, whether or not it
existed before, and an already-existing directory raises no error. -/
theorem C9_output_directory_created (m : MainInput) :
    (mainRun m).dirExistsAfter = true ∧ (mainRun m).mkdirError = false := by
  obtain ⟨d, o, t, sc⟩ := m
  cases o with
  | raiseErr => exact ⟨rfl, rfl⟩
  | noCameras => exact ⟨rfl, rfl⟩
  | ok =>
    cases t with
    | none => exact ⟨rfl, rfl⟩
    | some f0 =>
      rcases hres : (runLoop initState sc).1 with _ | e
      · simp only [mainRun, hres]
        exact ⟨rfl, rfl⟩
      · cases e with
        | quit =>
          simp only [mainRun, hres]
          exact ⟨rfl, rfl⟩
        | crash =>
          simp only [mainRun, hres]
          exact ⟨rfl, rfl⟩
